import Mathlib

/-!
Shallow embedding of the filter-selection state machine of
`umituz/react-native-filter`:

* `FilterUtils` from `src/domain/entities/Filter.ts`
  (`isActiveFilter`, `getActiveFilter`, `hasActiveFilter`);
* the hook `useListFilters` from
  `src/presentation/hooks/useListFilters.ts`
  (`handleFilterPress`, `handleClearFilters`, `applyFilters`), with the
  React state threaded explicitly as a `List String` of selected ids.

JavaScript notes reflected in the embedding:

* `config.defaultFilterId || "all"` falls back to `"all"` both when the
  field is absent and when it is the empty string (falsy);
* `selectedIds[0] || defaultFilterId` falls back to `defaultFilterId`
  both when the array is empty (`undefined`) and when the first element
  is the empty string (falsy);
* `config.singleSelect !== false` means single-select mode holds unless
  the field is present and exactly `false`.
-/

namespace ReactNativeFilter

/-- Filter option record from `src/domain/entities/Filter.ts`
(`id`, `label`, optional `icon`). -/
structure FilterOption where
  id : String
  label : String
  icon : Option String
deriving Repr, DecidableEq

/-- Filter configuration record from `src/domain/entities/Filter.ts`:
`options`, optional `defaultFilterId`, optional `singleSelect`. -/
structure FilterConfig where
  options : List FilterOption
  defaultFilterId : Option String
  singleSelect : Option Bool
deriving Repr, DecidableEq

/-- The value of `config.defaultFilterId || "all"` computed at the top of
`useListFilters`: `"all"` when the field is missing or the empty string
(JavaScript falsiness), the field's value otherwise. -/
def effectiveDefault (c : FilterConfig) : String :=
  match c.defaultFilterId with
  | none => "all"
  | some d => if d = "" then "all" else d

/-- The condition `config.singleSelect !== false` guarding the
single-select branch of `handleFilterPress`. -/
def effectiveSingleSelect (c : FilterConfig) : Bool :=
  match c.singleSelect with
  | some false => false
  | _ => true

/-- `FilterUtils.isActiveFilter`: a filter id is active when it differs
from the default id. -/
def isActiveFilter (filterId : String) (defaultFilterId : String) : Bool :=
  filterId != defaultFilterId

/-- `FilterUtils.getActiveFilter`: `selectedIds[0] || defaultFilterId`.
An empty array (`undefined` first element) and an empty-string first
element are both falsy in JavaScript, so both yield `defaultFilterId`. -/
def getActiveFilter (selectedIds : List String) (defaultFilterId : String) : String :=
  match selectedIds with
  | [] => defaultFilterId
  | x :: _ => if x = "" then defaultFilterId else x

/-- `FilterUtils.hasActiveFilter`: whether the active filter derived from
`selectedIds` differs from the default id. -/
def hasActiveFilter (selectedIds : List String) (defaultFilterId : String) : Bool :=
  isActiveFilter (getActiveFilter selectedIds defaultFilterId) defaultFilterId

/-- `handleFilterPress` from `useListFilters`, with the current React
state `selectedIds` passed in and the next state returned. -/
def handleFilterPress (c : FilterConfig) (selectedIds : List String)
    (filterId : String) : List String :=
  let defaultFilterId := effectiveDefault c
  if effectiveSingleSelect c then
    if selectedIds.contains filterId && filterId != defaultFilterId then
      [defaultFilterId]
    else
      [filterId]
  else
    if filterId == defaultFilterId then
      [defaultFilterId]
    else if selectedIds.contains filterId then
      let newIds := selectedIds.filter (fun id => id != filterId)
      if newIds.length > 0 then newIds else [defaultFilterId]
    else
      let newIds := selectedIds.filter (fun id => id != defaultFilterId)
      newIds ++ [filterId]

/-- `handleClearFilters` from `useListFilters`: resets the state to the
singleton default, ignoring the current state. -/
def handleClearFilters (c : FilterConfig) (_selectedIds : List String) :
    List String :=
  [effectiveDefault c]

/-- `applyFilters` from `useListFilters`: identity when no filter is
active, otherwise keep the items matched by at least one selected id. -/
def applyFilters {T : Type} (c : FilterConfig) (selectedIds : List String)
    (items : List T) (filterFn : T → String → Bool) : List T :=
  if hasActiveFilter selectedIds (effectiveDefault c) then
    items.filter (fun item => selectedIds.any (fun filterId => filterFn item filterId))
  else
    items

/-- User-visible operations on the hook's state: a press on a filter id,
or the clear-filters action. -/
inductive FilterOp where
  | press (filterId : String)
  | clear
deriving Repr, DecidableEq

/-- One transition of the hook's state under an operation. -/
def step (c : FilterConfig) (selectedIds : List String) : FilterOp → List String
  | .press filterId => handleFilterPress c selectedIds filterId
  | .clear => handleClearFilters c selectedIds

/-- The state after a sequence of operations, starting from the mount
state `[defaultFilterId]` set by `useState<string[]>([defaultFilterId])`. -/
def run (c : FilterConfig) (ops : List FilterOp) : List String :=
  ops.foldl (step c) [effectiveDefault c]

/-- Helper: in single-select mode the press reduces to a two-way case on
membership-and-non-default. -/
theorem press_single_eq (c : FilterConfig) (s : List String) (f : String)
    (h : effectiveSingleSelect c = true) :
    handleFilterPress c s f =
      if f ∈ s ∧ f ≠ effectiveDefault c then [effectiveDefault c] else [f] := by
  unfold handleFilterPress
  rw [h]
  by_cases hc : f ∈ s ∧ f ≠ effectiveDefault c
  · rw [if_pos hc]
    simp [hc.1, hc.2]
  · rw [if_neg hc]
    rcases not_and_or.mp hc with hm | hd
    · simp [hm]
    · have hd' : f = effectiveDefault c := not_not.mp hd
      simp [hd']

/-- Helper: in multi-select mode the press reduces to the three-way case
of the source. -/
theorem press_multi_eq (c : FilterConfig) (s : List String) (f : String)
    (h : effectiveSingleSelect c = false) :
    handleFilterPress c s f =
      if f = effectiveDefault c then [effectiveDefault c]
      else if f ∈ s then
        (if s.filter (fun id => id != f) = [] then [effectiveDefault c]
         else s.filter (fun id => id != f))
      else s.filter (fun id => id != effectiveDefault c) ++ [f] := by
  unfold handleFilterPress
  rw [h]
  simp only [Bool.false_eq_true, if_false]
  by_cases h1 : f = effectiveDefault c
  · simp [h1]
  · rw [if_neg h1]
    have h1b : (f == effectiveDefault c) = false := by simp [h1]
    simp only [h1b, Bool.false_eq_true, if_false]
    by_cases h2 : f ∈ s
    · rw [if_pos h2]
      have h2b : s.contains f = true := by simpa using h2
      simp only [h2b, if_true]
      by_cases h3 : s.filter (fun id => id != f) = []
      · rw [if_pos h3]
        simp [h3]
      · rw [if_neg h3]
        have : (s.filter (fun id => id != f)).length > 0 :=
          List.length_pos.mpr h3
        simp [this]
    · rw [if_neg h2]
      have h2b : s.contains f = false := by simpa using h2
      simp [h2b, h2]

/-- Helper: the press transition never produces the empty list. -/
theorem handleFilterPress_ne_nil (c : FilterConfig) (s : List String)
    (f : String) : handleFilterPress c s f ≠ [] := by
  by_cases h : effectiveSingleSelect c = true
  · rw [press_single_eq c s f h]
    split <;> simp
  · have h' : effectiveSingleSelect c = false := by
      cases hb : effectiveSingleSelect c
      · rfl
      · exact absurd hb h
    rw [press_multi_eq c s f h']
    split
    · simp
    · split
      · split <;> simp_all
      · simp

/-- Helper: a single transition never produces the empty list. -/
theorem step_ne_nil (c : FilterConfig) (s : List String) (op : FilterOp) :
    step c s op ≠ [] := by
  cases op with
  | press f => exact handleFilterPress_ne_nil c s f
  | clear => simp [step, handleClearFilters]

/-- Helper: the hook's derived `hasActiveFilter` is false at the default
singleton state. -/
theorem hasActiveFilter_default (d : String) :
    hasActiveFilter [d] d = false := by
  unfold hasActiveFilter getActiveFilter isActiveFilter
  by_cases hd : d = "" <;> simp [hd]

end ReactNativeFilter

namespace ReactNativeFilter

example : run ⟨[], none, none⟩ [.press "active"] = ["active"] := by decide

example : run ⟨[], some "all", some false⟩
    [.press "active", .press "completed"] = ["active", "completed"] := by decide

example : run ⟨[], some "all", some false⟩
    [.press "active", .press "completed", .press "active"] = ["completed"] := by decide

example : run ⟨[], some "all", some false⟩
    [.press "active", .press "completed", .press "active", .press "completed"]
    = ["all"] := by decide

example : getActiveFilter [""] "x" = "x" := by decide

/-- C1: in single-select mode, for every selection state and every
`filterId`, if `filterId` is in the current selection and is not the
default id then the press yields exactly `[DefaultFilterId]`; otherwise
the press yields exactly `[filterId]`. -/
theorem C1_single_select_press (c : FilterConfig) (s : List String)
    (f : String) (hmode : effectiveSingleSelect c = true) :
    (f ∈ s ∧ f ≠ effectiveDefault c →
      handleFilterPress c s f = [effectiveDefault c]) ∧
    (¬ (f ∈ s ∧ f ≠ effectiveDefault c) →
      handleFilterPress c s f = [f]) := by
  rw [press_single_eq c s f hmode]
  constructor
  · intro hc; rw [if_pos hc]
  · intro hc; rw [if_neg hc]

/-- Witness for C1: pressing an already-selected non-default id yields the
default singleton, and pressing a different id replaces the selection. -/
theorem C1_witness :
    handleFilterPress ⟨[], some "all", none⟩ ["active"] "active" = ["all"] ∧
    handleFilterPress ⟨[], some "all", none⟩ ["active"] "completed" = ["completed"] :=
  ⟨(C1_single_select_press ⟨[], some "all", none⟩ ["active"] "active" (by decide)).1
      (by decide),
   (C1_single_select_press ⟨[], some "all", none⟩ ["active"] "completed" (by decide)).2
      (by decide)⟩

/-- C2: in multi-select mode, pressing a non-default id that is already
selected removes it (keeping the remaining elements in their original
order), falling back to the default singleton when the remainder is
empty; pressing a non-default id that is not selected strips the default
id and appends the new id at the end. -/
theorem C2_multi_select_press (c : FilterConfig) (s : List String)
    (f : String) (hmode : effectiveSingleSelect c = false)
    (hf : f ≠ effectiveDefault c) :
    (f ∈ s → handleFilterPress c s f =
      (if s.filter (fun id => id != f) = [] then [effectiveDefault c]
       else s.filter (fun id => id != f))) ∧
    (f ∉ s → handleFilterPress c s f =
      s.filter (fun id => id != effectiveDefault c) ++ [f]) := by
  rw [press_multi_eq c s f hmode, if_neg hf]
  constructor
  · intro hmem; rw [if_pos hmem]
  · intro hmem; rw [if_neg hmem]

/-- Witness for C2: from `["active", "completed"]`, pressing `"active"`
removes it, and pressing the fresh id `"new"` appends it at the end. -/
theorem C2_witness :
    handleFilterPress ⟨[], some "all", some false⟩ ["active", "completed"] "active"
      = ["completed"] ∧
    handleFilterPress ⟨[], some "all", some false⟩ ["active", "completed"] "new"
      = ["active", "completed", "new"] := by
  constructor
  · have h := (C2_multi_select_press ⟨[], some "all", some false⟩
      ["active", "completed"] "active" (by decide) (by decide)).1 (by decide)
    rw [h]; decide
  · have h := (C2_multi_select_press ⟨[], some "all", some false⟩
      ["active", "completed"] "new" (by decide) (by decide)).2 (by decide)
    rw [h]; decide

/-- C3: every state reachable from the mount state `[DefaultFilterId]` by
any sequence of presses and clears, under any configuration (either
mode), is a non-empty list. -/
theorem C3_reachable_nonempty (c : FilterConfig) (ops : List FilterOp) :
    run c ops ≠ [] := by
  unfold run
  have H : ∀ (l : List FilterOp) (init : List String), init ≠ [] →
      l.foldl (step c) init ≠ [] := by
    intro l
    induction l with
    | nil => intro init h; simpa using h
    | cons op t ih =>
      intro init _h
      exact ih (step c init op) (step_ne_nil c init op)
  exact H ops [effectiveDefault c] (by simp)

/-- C4: in either mode, pressing the default id always resets the
selection to exactly the default singleton. -/
theorem C4_press_default (c : FilterConfig) (s : List String) :
    handleFilterPress c s (effectiveDefault c) = [effectiveDefault c] := by
  cases hmode : effectiveSingleSelect c
  · rw [press_multi_eq c s (effectiveDefault c) hmode, if_pos rfl]
  · rw [press_single_eq c s (effectiveDefault c) hmode]
    have : ¬ (effectiveDefault c ∈ s ∧ effectiveDefault c ≠ effectiveDefault c) := by
      rintro ⟨-, h⟩; exact h rfl
    rw [if_neg this]

/-- C5: `applyFilters` returns the items unchanged when no filter is
active (in particular at the default singleton state); otherwise it
returns the subsequence of items matched by at least one selected id
(union of matches); in all cases the result is a subsequence of the
input in original order. -/
theorem C5_applyFilters (c : FilterConfig) {T : Type} (s : List String)
    (items : List T) (p : T → String → Bool) :
    (hasActiveFilter s (effectiveDefault c) = false →
      applyFilters c s items p = items) ∧
    (s = [effectiveDefault c] → applyFilters c s items p = items) ∧
    (hasActiveFilter s (effectiveDefault c) = true →
      applyFilters c s items p =
        items.filter (fun item => decide (∃ fid ∈ s, p item fid = true))) ∧
    (applyFilters c s items p).Sublist items := by
  refine ⟨?_, ?_, ?_, ?_⟩
  · intro h
    unfold applyFilters
    rw [h]
    simp
  · intro h
    unfold applyFilters
    rw [h, hasActiveFilter_default]
    simp
  · intro h
    unfold applyFilters
    rw [h]
    simp only [if_true]
    apply List.filter_congr
    intro x _
    by_cases hx : ∃ fid ∈ s, p x fid = true
    · have h1 : s.any (fun fid => p x fid) = true := List.any_eq_true.mpr hx
      rw [h1, decide_eq_true hx]
    · have h1 : s.any (fun fid => p x fid) = false := by
        rw [← Bool.not_eq_true]
        intro hcon
        exact hx (List.any_eq_true.mp hcon)
      rw [h1, decide_eq_false hx]
  · unfold applyFilters
    split
    · exact List.filter_sublist items
    · exact List.Sublist.refl items

/-- Witness for C5: at the default singleton the items pass through even
under a rejecting predicate; with `["active", "completed"]` selected the
matching items are kept (union of matches); the result is a subsequence. -/
theorem C5_witness :
    applyFilters ⟨[], some "all", some false⟩ ["all"] ["a", "b"] (fun _ _ => false)
      = ["a", "b"] ∧
    applyFilters ⟨[], some "all", some false⟩ ["active", "completed"] ["a", "b"]
      (fun item fid => item == "a" && fid == "active")
      = List.filter (fun item => decide (∃ fid ∈ (["active", "completed"] : List String),
          (item == "a" && fid == "active") = true)) ["a", "b"] ∧
    (applyFilters ⟨[], some "all", some false⟩ ["active"] ["a", "b"]
      (fun _ _ => true)).Sublist ["a", "b"] := by
  refine ⟨?_, ?_, ?_⟩
  · exact (C5_applyFilters ⟨[], some "all", some false⟩ ["all"] ["a", "b"]
      (fun _ _ => false)).2.1 (by decide)
  · exact (C5_applyFilters ⟨[], some "all", some false⟩ ["active", "completed"]
      ["a", "b"] (fun item fid => item == "a" && fid == "active")).2.2.1 (by decide)
  · exact (C5_applyFilters ⟨[], some "all", some false⟩ ["active"] ["a", "b"]
      (fun _ _ => true)).2.2.2

/-- C6: the clear action always resets to exactly the default singleton,
and is idempotent: clearing twice equals clearing once. -/
theorem C6_clear_idempotent (c : FilterConfig) (s : List String) :
    handleClearFilters c s = [effectiveDefault c] ∧
    handleClearFilters c (handleClearFilters c s) = handleClearFilters c s :=
  ⟨rfl, rfl⟩

/-- C7 counterexample: at `selectedIds = [""]` with default `"x"`, the
code returns the default `"x"`, not the first element `""` (the
JavaScript expression `selectedIds[0] || defaultFilterId` treats the
empty string as falsy), so `activeFilter()` is not always the first
element of a non-empty `selectedIds`. -/
theorem C7_counterexample :
    getActiveFilter [""] "x" ≠ List.headD [""] "x" := by decide

/-- C7 (amended): `activeFilter()` returns the first element of
`selectedIds` when that element is not the empty string; it returns
`DefaultFilterId` when `selectedIds` is empty or its first element is
the empty string; `hasActiveFilter()` is true iff `activeFilter()`
differs from `DefaultFilterId`. -/
theorem C7_active_filter (s : List String) (d : String) :
    (s = [] → getActiveFilter s d = d) ∧
    (∀ x t, s = x :: t → x ≠ "" → getActiveFilter s d = x) ∧
    (∀ x t, s = x :: t → x = "" → getActiveFilter s d = d) ∧
    (hasActiveFilter s d = true ↔ getActiveFilter s d ≠ d) := by
  refine ⟨?_, ?_, ?_, ?_⟩
  · intro h; rw [h]; rfl
  · intro x t h hx
    rw [h]
    unfold getActiveFilter
    simp [hx]
  · intro x t h hx
    rw [h]
    unfold getActiveFilter
    simp [hx]
  · unfold hasActiveFilter isActiveFilter
    simp

/-- Witness for C7: at `["active"]` with default `"all"` the active
filter is `"active"` and the `hasActiveFilter` equivalence holds. -/
theorem C7_witness :
    getActiveFilter ["active"] "all" = "active" ∧
    (hasActiveFilter ["active"] "all" = true ↔
      getActiveFilter ["active"] "all" ≠ "all") :=
  ⟨(C7_active_filter ["active"] "all").2.1 "active" [] rfl (by decide),
   (C7_active_filter ["active"] "all").2.2.2⟩

/-- C8: the press transition is a total function of the selection state
and the pressed id alone — it never consults `config.options`, so two
configurations agreeing on `defaultFilterId` and `singleSelect` but with
different option catalogs produce identical transitions, for every
string id including ids absent from both catalogs. -/
theorem C8_options_independent (c1 c2 : FilterConfig) (s : List String)
    (f : String) (hd : c1.defaultFilterId = c2.defaultFilterId)
    (hm : c1.singleSelect = c2.singleSelect) :
    handleFilterPress c1 s f = handleFilterPress c2 s f := by
  unfold handleFilterPress effectiveDefault effectiveSingleSelect
  rw [hd, hm]

/-- Witness for C8: a config with a one-option catalog and a config with
an empty catalog transition identically on the unknown id `"mystery"`. -/
theorem C8_witness :
    handleFilterPress ⟨[⟨"all", "All", none⟩], some "all", none⟩ ["all"] "mystery"
      = handleFilterPress ⟨[], some "all", none⟩ ["all"] "mystery" :=
  C8_options_independent ⟨[⟨"all", "All", none⟩], some "all", none⟩
    ⟨[], some "all", none⟩ ["all"] "mystery" rfl rfl

/-- C9: in single-select mode the result of any press on any prior state
has length exactly one, is either the default singleton or the pressed
singleton, and a press on a non-default id contained anywhere in the
prior list collapses the whole selection to the default singleton. -/
theorem C9_single_select_singleton (c : FilterConfig) (s : List String)
    (f : String) (hmode : effectiveSingleSelect c = true) :
    (handleFilterPress c s f).length = 1 ∧
    (handleFilterPress c s f = [effectiveDefault c] ∨
      handleFilterPress c s f = [f]) ∧
    (f ∈ s → f ≠ effectiveDefault c →
      handleFilterPress c s f = [effectiveDefault c]) := by
  rw [press_single_eq c s f hmode]
  by_cases hc : f ∈ s ∧ f ≠ effectiveDefault c
  · rw [if_pos hc]
    exact ⟨rfl, Or.inl rfl, fun _ _ => rfl⟩
  · rw [if_neg hc]
    exact ⟨rfl, Or.inr rfl, fun h1 h2 => absurd ⟨h1, h2⟩ hc⟩

/-- Witness for C9: a two-element prior list containing the pressed id
collapses to the default singleton. -/
theorem C9_witness :
    handleFilterPress ⟨[], some "all", none⟩ ["active", "other"] "active" = ["all"] :=
  (C9_single_select_singleton ⟨[], some "all", none⟩ ["active", "other"] "active"
    (by decide)).2.2 (by decide) (by decide)

/-- Invariant of multi-select reachable states: the state is the default
singleton, or a non-empty list not containing the default id. -/
def MultiOk (c : FilterConfig) (s : List String) : Prop :=
  s = [effectiveDefault c] ∨ (s ≠ [] ∧ effectiveDefault c ∉ s)

/-- Helper: one multi-select transition preserves `MultiOk`. -/
theorem step_multiOk (c : FilterConfig)
    (hmode : effectiveSingleSelect c = false) (s : List String)
    (hs : MultiOk c s) (op : FilterOp) : MultiOk c (step c s op) := by
  cases op with
  | clear => exact Or.inl rfl
  | press f =>
    show MultiOk c (handleFilterPress c s f)
    rw [press_multi_eq c s f hmode]
    by_cases h1 : f = effectiveDefault c
    · rw [if_pos h1]; exact Or.inl rfl
    · rw [if_neg h1]
      by_cases h2 : f ∈ s
      · rw [if_pos h2]
        have hd : effectiveDefault c ∉ s := by
          rcases hs with h | ⟨-, h⟩
          · rw [h] at h2
            exact absurd (List.mem_singleton.mp h2) h1
          · exact h
        by_cases h3 : s.filter (fun id => id != f) = []
        · rw [if_pos h3]; exact Or.inl rfl
        · rw [if_neg h3]
          refine Or.inr ⟨h3, fun hcon => hd (List.mem_of_mem_filter hcon)⟩
      · rw [if_neg h2]
        refine Or.inr ⟨by simp, fun hcon => ?_⟩
        rcases List.mem_append.mp hcon with hcon | hcon
        · have := List.of_mem_filter hcon
          simp at this
        · exact h1 (List.mem_singleton.mp hcon).symm

/-- Helper: every multi-select reachable state satisfies `MultiOk`. -/
theorem run_multiOk (c : FilterConfig)
    (hmode : effectiveSingleSelect c = false) (ops : List FilterOp) :
    MultiOk c (run c ops) := by
  unfold run
  have H : ∀ (l : List FilterOp) (init : List String), MultiOk c init →
      MultiOk c (l.foldl (step c) init) := by
    intro l
    induction l with
    | nil => intro init h; simpa using h
    | cons op t ih =>
      intro init h
      exact ih (step c init op) (step_multiOk c hmode init h op)
  exact H ops [effectiveDefault c] (Or.inl rfl)

/-- C10: in multi-select mode, from any reachable state `s`, selecting a
fresh non-default id and then deselecting it restores exactly `s`. -/
theorem C10_multi_roundtrip (c : FilterConfig) (s : List String)
    (x : String) (hmode : effectiveSingleSelect c = false)
    (hreach : ∃ ops, run c ops = s) (hx : x ≠ effectiveDefault c)
    (hmem : x ∉ s) :
    handleFilterPress c (handleFilterPress c s x) x = s := by
  obtain ⟨ops, hops⟩ := hreach
  have hinv : MultiOk c s := hops ▸ run_multiOk c hmode ops
  have h1 : handleFilterPress c s x =
      s.filter (fun id => id != effectiveDefault c) ++ [x] := by
    rw [press_multi_eq c s x hmode, if_neg hx, if_neg hmem]
  have hx' : x ∈ s.filter (fun id => id != effectiveDefault c) ++ [x] := by simp
  rw [h1, press_multi_eq c _ x hmode, if_neg hx, if_pos hx']
  have ha : (s.filter (fun id => id != effectiveDefault c)).filter
      (fun id => id != x) = s.filter (fun id => id != effectiveDefault c) := by
    apply List.filter_eq_self.mpr
    intro a hamem
    have hin : a ∈ s := List.mem_of_mem_filter hamem
    simp only [bne_iff_ne, ne_eq, decide_eq_true_eq]
    rintro rfl
    exact hmem hin
  have h2 : (s.filter (fun id => id != effectiveDefault c) ++ [x]).filter
      (fun id => id != x) = s.filter (fun id => id != effectiveDefault c) := by
    rw [List.filter_append, ha]
    simp
  rw [h2]
  rcases hinv with hdef | ⟨hne, hd⟩
  · rw [hdef]
    simp
  · have hfs : s.filter (fun id => id != effectiveDefault c) = s := by
      apply List.filter_eq_self.mpr
      intro a hamem
      simp only [bne_iff_ne, ne_eq, decide_eq_true_eq]
      rintro rfl
      exact hd hamem
    rw [hfs, if_neg hne]

/-- Witness for C10: from the reachable default state `["all"]`, pressing
the fresh id `"active"` twice restores `["all"]`. -/
theorem C10_witness :
    handleFilterPress ⟨[], some "all", some false⟩
      (handleFilterPress ⟨[], some "all", some false⟩ ["all"] "active") "active"
      = ["all"] :=
  C10_multi_roundtrip ⟨[], some "all", some false⟩ ["all"] "active" (by decide)
    ⟨[], by decide⟩ (by decide) (by decide)

end ReactNativeFilter
